import Mathlib

/-!
Verification of the observatory controller in panoptes/observatory.py.

The embedding models one invocation of each state-handler method of the
Observatory class.  The subsystem adapters (camera, mount, weather station,
scheduler) are modelled from the spec as mock objects: their status fields
are inputs and each of their commands can be made to fail.  The handler
bodies themselves, the is_dark oracle, query_conditions, heartbeat and the
start_observing loop are translated statement by statement from the source.

Python runtime behaviour that the source depends on is modelled explicitly:
an exception aborts the handler unless the raising statement sits inside a
try/except; a module-level name that is never bound (observatory, states,
scheduler, target) raises NameError when read; assigning a Bool to the
instance attribute is_dark shadows the method, so a later call of the
attribute raises TypeError.
-/

/-- Mocked camera status fields, as polled by query_conditions. -/
structure CameraS where
  connected : Bool
  cooling : Bool
  cooled : Bool
  exposing : Bool
deriving DecidableEq

/-- Mocked mount status fields, as polled by query_conditions. -/
structure MountS where
  connected : Bool
  tracking : Bool
  slewing : Bool
  parked : Bool
deriving DecidableEq

/-- Mocked weather-station status field. -/
structure WeatherS where
  safe : Bool
deriving DecidableEq

/-- The target record held by the scheduler (spec section 3; the source reads
test_image_taken and name, the further fields appear in the docstrings). -/
structure TargetRec where
  name : String
  test_image_taken : Bool
  images_taken : Nat
  min_images : Nat
  completed : Bool
  astrometry_solved : Bool
  analysis_attempted : Bool
  analysis_in_progress : Bool
deriving DecidableEq

/-- Failure switches for the mocked subsystem commands: a true flag makes the
corresponding command raise when invoked. -/
structure Faults where
  cameraConnect : Bool
  cameraDisconnect : Bool
  cameraSetCooling : Bool
  cameraCancelExposure : Bool
  cameraTakeImage : Bool
  mountConnect : Bool
  mountDisconnect : Bool
  mountSetTracking : Bool
  mountCancelSlew : Bool
  mountSlewTo : Bool
  mountPark : Bool
  schedulerGetTarget : Bool
deriving DecidableEq

/-- The observable slice of an Observatory instance entering a handler call:
the mocked adapter fields, the scheduler target, the ephem sun altitude in
radians (sun.alt is an ephem Angle, a radian-valued float), whether the
instance attribute is_dark has already been rebound to a Bool by an earlier
completed is_dark call, the start-time predicate, and the fault switches.
The method time_to_start is called by while_shutdown but defined nowhere in
the repository; timeToStart is modelled from the spec (start-time reached). -/
structure Obs where
  camera : CameraS
  mount : MountS
  weather : WeatherS
  schedulerTarget : Option TargetRec
  sunAlt : ℚ
  isDarkRebound : Bool
  timeToStart : Bool
  faults : Faults

/-- Python exceptions that the source can raise. -/
inductive PyErr where
  | nameError (n : String)
  | typeError
  | commandFailure
  | keyError
deriving DecidableEq

/-- Events recorded while a handler runs: each attempted subsystem command,
each log call, sleeps, and heartbeat file writes. -/
inductive Ev where
  | cameraConnect
  | cameraDisconnect
  | cameraSetCooling (b : Bool)
  | cameraCancelExposure
  | cameraTakeImage (test : Bool)
  | mountConnect
  | mountDisconnect
  | mountSetTracking
  | mountCancelSlew
  | mountSlewTo
  | mountPark
  | logDebug
  | logInfo
  | logWarning
  | logCritical
  | sleep (sec : Nat)
  | heartbeatWrite
deriving DecidableEq

/-- True for events that are commands issued to a subsystem adapter (log
calls, sleeps and the heartbeat file write are not subsystem commands). -/
def isSubsysCmd : Ev → Bool
  | .cameraConnect => true
  | .cameraDisconnect => true
  | .cameraSetCooling _ => true
  | .cameraCancelExposure => true
  | .cameraTakeImage _ => true
  | .mountConnect => true
  | .mountDisconnect => true
  | .mountSetTracking => true
  | .mountCancelSlew => true
  | .mountSlewTo => true
  | .mountPark => true
  | _ => false

/-- Number of subsystem commands in a trace. -/
def subsysCount (t : List Ev) : Nat := (t.filter isSubsysCmd).length

/-- Number of mount.park invocations in a trace. -/
def parkCount (t : List Ev) : Nat :=
  (t.filter (fun e => match e with | .mountPark => true | _ => false)).length

/-- Number of critical log calls in a trace. -/
def criticalCount (t : List Ev) : Nat :=
  (t.filter (fun e => match e with | .logCritical => true | _ => false)).length

/-- Number of camera.take_image invocations in a trace. -/
def takeImageCount (t : List Ev) : Nat :=
  (t.filter (fun e => match e with | .cameraTakeImage _ => true | _ => false)).length

/-- Number of heartbeat file writes in a trace. -/
def heartbeatWrites (t : List Ev) : Nat :=
  (t.filter (fun e => match e with | .heartbeatWrite => true | _ => false)).length

/-- Execution context of a running handler: the value of self.current_state,
the event trace so far, and the instance fields (which the handler can
mutate: the is_dark rebinding flag and the scheduler target). -/
structure Ctx where
  cs : String
  trace : List Ev
  obs : Obs

/-- Append an event to the trace. -/
def emit (c : Ctx) (e : Ev) : Ctx := { c with trace := c.trace ++ [e] }

/-- A handler computation either reaches a point with context c, or aborts
with an uncaught exception (the context at the raise is kept so that the
trace up to the crash remains observable). -/
abbrev HR := Except (PyErr × Ctx) Ctx

/-- The state string returned by the handler, or the uncaught exception. -/
def resultState : HR → Except PyErr String
  | .ok c => .ok c.cs
  | .error (e, _) => .error e

/-- The event trace of the invocation (up to the crash if one occurred). -/
def resultTrace : HR → List Ev
  | .ok c => c.trace
  | .error (_, c) => c.trace

/-- The instance fields after the invocation. -/
def resultObs : HR → Obs
  | .ok c => c.obs
  | .error (_, c) => c.obs

/-- Names bound at module level in panoptes/observatory.py: the imports of
lines 6 to 24 and the class defined at line 28.  The names observatory,
states, scheduler and target read inside the class body are not among them. -/
def moduleGlobals : List String :=
  ["sys", "os", "argparse", "ephem", "datetime", "time", "importlib",
   "panoptes", "mount", "camera", "weather", "logger", "config", "error",
   "Observatory"]

/-- Calling the attribute self.is_dark (source lines 187 to 198).  If the
attribute was already rebound to a Bool by an earlier completed call, the
call raises TypeError.  Otherwise the method body runs: it logs, recomputes
the site date, computes the sun, evaluates sun.alt < dark_horizon (sun.alt
in radians, dark_horizon the numeric argument), rebinds the attribute to the
resulting Bool (line 197) and returns it.  Handlers call it with the default
dark_horizon of -12. -/
def isDarkCall (c : Ctx) : Except (PyErr × Ctx) (Bool × Ctx) :=
  if c.obs.isDarkRebound then .error (.typeError, c)
  else
    let c := emit c .logDebug
    let v := decide (c.obs.sunAlt < -12)
    .ok (v, { c with obs := { c.obs with isDarkRebound := true } })

/-- A corrective action wrapped in try/except whose except body is
current_state = parking, a critical log and mount.park() (the park call
itself is not wrapped, so a park failure propagates). -/
def tryEsc (e : Ev) (fails parkFails : Bool) (c : Ctx) : HR :=
  let c := emit c e
  if fails then
    let c := emit { c with cs := "parking" } .logCritical
    let c := emit c .mountPark
    if parkFails then .error (.commandFailure, c) else .ok c
  else .ok c

/-- A conditional corrective block of the sleeping and getting-ready
handlers: on the condition, log a warning, run the action, and escalate on
its failure. -/
def wrapped (cond : Bool) (e : Ev) (fails parkFails : Bool) (c : Ctx) : HR :=
  if cond then tryEsc e fails parkFails (emit c .logWarning) else .ok c

/-- A conditional corrective block of the scheduling handler, which first
retargets current_state to getting ready, then logs and acts as above. -/
def wrappedGR (cond : Bool) (e : Ev) (fails parkFails : Bool) (c : Ctx) : HR :=
  if cond then tryEsc e fails parkFails (emit { c with cs := "getting ready" } .logWarning)
  else .ok c

/-- The weather and end-of-night park blocks (source lines 559 to 566, 635
to 642, 725 to 732, 794 to 801): current_state = parking, an info log, then
mount.park() inside try; on park failure the except body reverts
current_state to getting ready and logs critical. -/
def weather_park (c : Ctx) (parkFails : Bool) : Ctx :=
  let c := emit { c with cs := "parking" } .logInfo
  let c := emit c .mountPark
  if parkFails then emit { c with cs := "getting ready" } .logCritical else c

/-- while_taking_test_image (source lines 805 to 858): sets current_state,
logs entry, returns. -/
def while_taking_test_image (o : Obs) : HR :=
  .ok ⟨"taking test image", [Ev.logDebug], o⟩

/-- while_analyzing (source lines 860 to 917): sets current_state, logs
entry, returns; none of the analysis logic of the docstring is present. -/
def while_analyzing (o : Obs) : HR :=
  .ok ⟨"analyzing", [Ev.logDebug], o⟩

/-- while_imaging (source lines 919 to 977): sets current_state, logs entry,
returns. -/
def while_imaging (o : Obs) : HR :=
  .ok ⟨"imaging", [Ev.logDebug], o⟩

/-- while_parking (source lines 979 to 1001): sets current_state, logs
entry, returns. -/
def while_parking (o : Obs) : HR :=
  .ok ⟨"parking", [Ev.logDebug], o⟩

/-- while_parked (source lines 1003 to 1019): sets current_state, logs
entry, returns. -/
def while_parked (o : Obs) : HR :=
  .ok ⟨"parked", [Ev.logDebug], o⟩

/-- while_shutdown (source lines 201 to 280).  The consistency check waits if
not yet start time and both components disconnected.  Otherwise: a connected
mount or camera is disconnected (the disconnect calls are not inside
try/except, so a disconnect failure propagates uncaught); past start time the
state moves to sleeping and both components are connected, each connect being
wrapped with escalation to parking on failure. -/
def while_shutdown (o : Obs) : HR :=
  let c : Ctx := ⟨"shutdown", [Ev.logDebug], o⟩
  if !o.timeToStart && !o.camera.connected && !o.mount.connected then
    .ok (emit (emit c .logInfo) (.sleep 60))
  else
    (if o.mount.connected then
        let c := emit (emit c .logWarning) .mountDisconnect
        if o.faults.mountDisconnect then .error (.commandFailure, c) else .ok c
      else .ok c) >>= fun c =>
    (if o.camera.connected then
        let c := emit (emit c .logWarning) .cameraDisconnect
        if o.faults.cameraDisconnect then .error (.commandFailure, c) else .ok c
      else .ok c) >>= fun c =>
    if o.timeToStart then
      let c := emit { c with cs := "sleeping" } .logInfo
      tryEsc .cameraConnect o.faults.cameraConnect o.faults.mountPark c >>= fun c =>
      tryEsc .mountConnect o.faults.mountConnect o.faults.mountPark c
    else .ok c

/-- while_sleeping (source lines 282 to 416).  The consistency check calls
is_dark (rebinding it) and waits when the check passes.  Otherwise each
violated clause is corrected with escalation to parking on failure; an
unparked mount escalates directly with an unwrapped park call; finally line
404 calls self.is_dark() a second time, which raises TypeError because the
first call rebound the attribute to a Bool. -/
def while_sleeping (o : Obs) : HR :=
  let c : Ctx := ⟨"sleeping", [Ev.logDebug], o⟩
  match isDarkCall c with
  | .error ec => .error ec
  | .ok (d, c) =>
    if !d && o.camera.connected && !o.camera.cooling && !o.camera.exposing
        && o.mount.connected && !o.mount.tracking && !o.mount.slewing
        && o.mount.parked then
      .ok (emit (emit c .logInfo) (.sleep 60))
    else
      wrapped (!o.camera.connected) .cameraConnect o.faults.cameraConnect o.faults.mountPark c >>= fun c =>
      wrapped o.camera.cooling (.cameraSetCooling false) o.faults.cameraSetCooling o.faults.mountPark c >>= fun c =>
      wrapped o.camera.exposing .cameraCancelExposure o.faults.cameraCancelExposure o.faults.mountPark c >>= fun c =>
      wrapped (!o.mount.connected) .mountConnect o.faults.mountConnect o.faults.mountPark c >>= fun c =>
      wrapped o.mount.tracking .mountSetTracking o.faults.mountSetTracking o.faults.mountPark c >>= fun c =>
      wrapped o.mount.slewing .mountCancelSlew o.faults.mountCancelSlew o.faults.mountPark c >>= fun c =>
      (if !o.mount.parked then
          let c := emit { c with cs := "parking" } .logCritical
          let c := emit c .mountPark
          if o.faults.mountPark then .error (.commandFailure, c) else .ok c
        else .ok c) >>= fun c =>
      match isDarkCall c with
      | .error ec => .error ec
      | .ok (d2, c) =>
        if d2 && o.weather.safe then
          let c := emit (emit { c with cs := "getting ready" } .logInfo) .logInfo
          tryEsc (.cameraSetCooling true) o.faults.cameraSetCooling o.faults.mountPark c
        else .ok c

/-- The forward-transition block of while_getting_ready (source lines 511 to
520): on a cooled camera in safe weather, log, set current_state to
scheduling and evaluate scheduler.get_target().  The name scheduler is a
bare module-level read and is unbound, so the try body raises NameError
before any scheduler call; the bare except catches it, reverts current_state
to getting ready and logs a warning. -/
def grSchedule (c : Ctx) (getTargetFails : Bool) : Ctx :=
  if c.obs.camera.cooled && c.obs.weather.safe then
    let c := emit c .logWarning
    let c := { c with cs := "scheduling" }
    if moduleGlobals.contains "scheduler" then
      if getTargetFails then emit { c with cs := "getting ready" } .logWarning else c
    else
      emit { c with cs := "getting ready" } .logWarning
  else c

/-- while_getting_ready (source lines 418 to 567).  The consistency check
calls is_dark once; when it fails, each violated clause is corrected with
escalation, the forward block may fire, a stray scheduler target is cleared,
and unsafe weather parks through the caught-park block. -/
def while_getting_ready (o : Obs) : HR :=
  let c : Ctx := ⟨"getting ready", [Ev.logDebug], o⟩
  match isDarkCall c with
  | .error ec => .error ec
  | .ok (d, c) =>
    if d && o.camera.connected && o.camera.cooling && !o.camera.cooled
        && !o.camera.exposing && o.mount.connected && !o.mount.tracking
        && !o.mount.slewing && o.schedulerTarget.isNone && o.weather.safe then
      .ok (emit (emit (emit c .logDebug) .logInfo) (.sleep 10))
    else
      wrapped (!o.camera.connected) .cameraConnect o.faults.cameraConnect o.faults.mountPark c >>= fun c =>
      wrapped (!o.camera.cooling) (.cameraSetCooling true) o.faults.cameraSetCooling o.faults.mountPark c >>= fun c =>
      wrapped o.camera.exposing .cameraCancelExposure o.faults.cameraCancelExposure o.faults.mountPark c >>= fun c =>
      (Except.ok (grSchedule c o.faults.schedulerGetTarget)) >>= fun c =>
      wrapped (!o.mount.connected) .mountConnect o.faults.mountConnect o.faults.mountPark c >>= fun c =>
      wrapped o.mount.tracking .mountSetTracking o.faults.mountSetTracking o.faults.mountPark c >>= fun c =>
      wrapped o.mount.slewing .mountCancelSlew o.faults.mountCancelSlew o.faults.mountPark c >>= fun c =>
      let c := if o.schedulerTarget.isSome then
          emit { c with obs := { c.obs with schedulerTarget := none } } .logDebug
        else c
      .ok (if !o.weather.safe then weather_park c o.faults.mountPark else c)

/-- The forward-transition block of while_scheduling (source lines 713 to
723): on a selected target in safe weather, log, set current_state to
slewing and evaluate self.mount.slew_to(target).  The argument target is a
bare module-level read and is unbound, so NameError is raised before the
slew command is issued; the bare except catches it, logs critical and sets
current_state to getting ready. -/
def schedSlew (c : Ctx) : Ctx :=
  if c.obs.schedulerTarget.isSome && c.obs.weather.safe then
    let c := emit c .logInfo
    let c := emit { c with cs := "slewing" } .logInfo
    if moduleGlobals.contains "target" then c
    else emit { c with cs := "getting ready" } .logCritical
  else c

/-- while_scheduling (source lines 569 to 733).  The consistency check calls
is_dark, rebinding it; when the check fails, the first statement of the else
branch (line 635) calls self.is_dark() again and therefore raises TypeError,
so the remaining corrective blocks (embedded below for fidelity) are
unreachable on any invocation. -/
def while_scheduling (o : Obs) : HR :=
  let c : Ctx := ⟨"scheduling", [Ev.logDebug], o⟩
  match isDarkCall c with
  | .error ec => .error ec
  | .ok (d, c) =>
    if d && o.camera.connected && o.camera.cooling && o.camera.cooled
        && !o.camera.exposing && o.mount.connected && !o.mount.slewing
        && o.weather.safe then
      .ok c
    else
      match isDarkCall c with
      | .error ec => .error ec
      | .ok (d2, c) =>
        let c := if !d2 then weather_park c o.faults.mountPark else c
        wrappedGR (!o.camera.connected) .cameraConnect o.faults.cameraConnect o.faults.mountPark c >>= fun c =>
        wrappedGR (!o.camera.cooling) (.cameraSetCooling true) o.faults.cameraSetCooling o.faults.mountPark c >>= fun c =>
        (Except.ok (if !o.camera.cooled then emit { c with cs := "getting ready" } .logWarning else c)) >>= fun c =>
        wrappedGR o.camera.exposing .cameraCancelExposure o.faults.cameraCancelExposure o.faults.mountPark c >>= fun c =>
        wrappedGR (!o.mount.connected) .mountConnect o.faults.mountConnect o.faults.mountPark c >>= fun c =>
        wrappedGR o.mount.slewing .mountCancelSlew o.faults.mountCancelSlew o.faults.mountPark c >>= fun c =>
        let c := schedSlew c
        .ok (if !o.weather.safe then weather_park c o.faults.mountPark else c)

/-- while_slewing (source lines 735 to 803).  When the mount is connected
and slewing the handler passes.  Otherwise, if the slew has completed in
safe weather, line 787 reads target.test_image_taken where target is a bare
unbound module-level name, raising NameError outside any try, so the
dispatch to taking test image or imaging is never reached; unsafe weather
parks through the caught-park block. -/
def while_slewing (o : Obs) : HR :=
  let c : Ctx := ⟨"slewing", [Ev.logDebug], o⟩
  if o.mount.connected && o.mount.slewing then .ok c
  else
    (if !o.mount.slewing && o.weather.safe then
        if moduleGlobals.contains "target" then .ok c
        else .error (PyErr.nameError "target", c)
      else .ok c) >>= fun c =>
    .ok (if !o.weather.safe then weather_park c o.faults.mountPark else c)

/-- The ten states of the dispatch dictionary built in the constructor
(source lines 54 to 65). -/
inductive StateName where
  | shutdown
  | sleeping
  | gettingReady
  | scheduling
  | slewing
  | takingTestImage
  | analyzing
  | imaging
  | parking
  | parked
deriving DecidableEq

/-- The dictionary key of each state (source lines 54 to 65). -/
def stateKey : StateName → String
  | .shutdown => "shutdown"
  | .sleeping => "sleeping"
  | .gettingReady => "getting ready"
  | .scheduling => "scheduling"
  | .slewing => "slewing"
  | .takingTestImage => "taking test image"
  | .analyzing => "analyzing"
  | .imaging => "imaging"
  | .parking => "parking"
  | .parked => "parked"

/-- Dispatch of the self.states dictionary: the handler mapped to each
state. -/
def runState : StateName → Obs → HR
  | .shutdown => while_shutdown
  | .sleeping => while_sleeping
  | .gettingReady => while_getting_ready
  | .scheduling => while_scheduling
  | .slewing => while_slewing
  | .takingTestImage => while_taking_test_image
  | .analyzing => while_analyzing
  | .imaging => while_imaging
  | .parking => while_parking
  | .parked => while_parked

/-- Reverse lookup of the dictionary keys. -/
def stateOfKey (s : String) : Option StateName :=
  if s = "shutdown" then some .shutdown
  else if s = "sleeping" then some .sleeping
  else if s = "getting ready" then some .gettingReady
  else if s = "scheduling" then some .scheduling
  else if s = "slewing" then some .slewing
  else if s = "taking test image" then some .takingTestImage
  else if s = "analyzing" then some .analyzing
  else if s = "imaging" then some .imaging
  else if s = "parking" then some .parking
  else if s = "parked" then some .parked
  else none

/-- query_conditions (source lines 164 to 177): every statement of the body
reads the module-level name observatory, which is unbound, so the first
statement raises NameError and none of the polls run. -/
def query_conditions : Except PyErr (List Ev) :=
  if moduleGlobals.contains "observatory" then .ok []
  else .error (.nameError "observatory")

/-- The name resolution of line 155, next_state = states[...]: the bare name
states is read from module level, where it is unbound. -/
def statesLookupGlobal : Except PyErr Unit :=
  if moduleGlobals.contains "states" then .ok ()
  else .error (.nameError "states")

/-- One iteration of the start_observing loop (source lines 150 to 156):
check the stop sentinel, call query_conditions, resolve the name states,
index the dictionary with the current state and call the handler, then
commit the returned state.  The result is the committed next state (none
when the loop breaks) or the uncaught exception, together with the events of
the iteration.  The body contains no call to heartbeat. -/
def loopIter (st : String) (o : Obs) : Except PyErr (Option String) × List Ev :=
  if st = "stop_observing" then (.ok none, [])
  else
    match query_conditions with
    | .error e => (.error e, [])
    | .ok evs =>
      match statesLookupGlobal with
      | .error e => (.error e, evs)
      | .ok _ =>
        match stateOfKey st with
        | none => (.error .keyError, evs)
        | some n =>
          match runState n o with
          | .ok c => (.ok (some c.cs), evs ++ c.trace)
          | .error (e, c) => (.error e, evs ++ c.trace)

/-- heartbeat (source lines 179 to 185): log, open the heartbeat file and
write the current timestamp; the with block closes the file before
returning. -/
def heartbeat : List Ev := [Ev.logDebug, Ev.heartbeatWrite]

/-- The settled consistency invariant of each state.  For shutdown,
sleeping, getting ready, scheduling and slewing this is the exact boolean
formula of the handler consistency check (source lines 238, 318 to 325, 459
to 468, 623 to 630, 781), with is_dark rendered as its return value
sunAlt < -12.  The handlers of the remaining five states have no check in
their bodies; their invariants are translated from the state tables of their
docstrings (and, for parking and parked, from the spec table, the docstrings
of those two states having no table). -/
def settled : StateName → Obs → Bool
  | .shutdown, o => !o.timeToStart && !o.camera.connected && !o.mount.connected
  | .sleeping, o => !(decide (o.sunAlt < -12)) && o.camera.connected
      && !o.camera.cooling && !o.camera.exposing && o.mount.connected
      && !o.mount.tracking && !o.mount.slewing && o.mount.parked
  | .gettingReady, o => decide (o.sunAlt < -12) && o.camera.connected
      && o.camera.cooling && !o.camera.cooled && !o.camera.exposing
      && o.mount.connected && !o.mount.tracking && !o.mount.slewing
      && o.schedulerTarget.isNone && o.weather.safe
  | .scheduling, o => decide (o.sunAlt < -12) && o.camera.connected
      && o.camera.cooling && o.camera.cooled && !o.camera.exposing
      && o.mount.connected && !o.mount.slewing && o.weather.safe
  | .slewing, o => o.mount.connected && o.mount.slewing
  | .takingTestImage, o => decide (o.sunAlt < -12) && o.camera.connected
      && o.camera.cooling && o.camera.cooled && o.camera.exposing
      && o.mount.connected && o.mount.tracking && !o.mount.slewing
      && !o.mount.parked && o.weather.safe
      && (match o.schedulerTarget with
          | some t => !t.test_image_taken && !t.completed
          | none => false)
  | .analyzing, o => decide (o.sunAlt < -12) && o.camera.connected
      && o.camera.cooling && o.camera.cooled && !o.camera.exposing
      && o.mount.connected && o.mount.tracking && !o.mount.slewing
      && !o.mount.parked && o.weather.safe
      && (match o.schedulerTarget with
          | some t => t.test_image_taken && !t.completed
          | none => false)
  | .imaging, o => decide (o.sunAlt < -12) && o.camera.connected
      && o.camera.cooling && o.camera.cooled && o.camera.exposing
      && o.mount.connected && o.mount.tracking && !o.mount.slewing
      && !o.mount.parked && o.weather.safe
      && (match o.schedulerTarget with
          | some t => t.test_image_taken && !t.completed
          | none => false)
  | .parking, o => !o.mount.parked
  | .parked, o => o.mount.parked && decide (o.sunAlt < -12)

/-- A fault record with every switch off. -/
def noFaults : Faults :=
  ⟨false, false, false, false, false, false, false, false, false, false, false, false⟩

/-- A baseline instance: components disconnected and idle, safe weather, no
target, daytime sun, fresh is_dark attribute, before start time, no faults. -/
def baseObs : Obs where
  camera := ⟨false, false, false, false⟩
  mount := ⟨false, false, false, false⟩
  weather := ⟨true⟩
  schedulerTarget := none
  sunAlt := 0
  isDarkRebound := false
  timeToStart := false
  faults := noFaults

deriving instance DecidableEq for Except

/-- An imaging-time snapshot in which the weather is unsafe. -/
def oImgUnsafe : Obs := { baseObs with weather := ⟨false⟩ }

/-- A shutdown snapshot with the mount unexpectedly connected and its
disconnect command made to fail. -/
def oShutDisc : Obs := { baseObs with
  mount := ⟨true, false, false, false⟩,
  faults := { noFaults with mountDisconnect := true } }

/-- A snapshot consistent with the getting ready state except as overridden:
camera connected and cooling, mount connected and idle. -/
def grBase : Obs := { baseObs with
  camera := ⟨true, true, false, false⟩,
  mount := ⟨true, false, false, false⟩ }

/-- The getting-ready-consistent snapshot with unsafe weather. -/
def oGRun : Obs := { grBase with weather := ⟨false⟩ }

/-- A getting-ready snapshot with cooled camera and safe weather (the
forward-transition scenario). -/
def grCooled : Obs := { grBase with camera := ⟨true, true, true, false⟩ }

/-- A getting-ready snapshot with unsafe weather whose park command fails. -/
def grParkFail : Obs := { grBase with
  weather := ⟨false⟩,
  faults := { noFaults with mountPark := true } }

/-- A slewing snapshot whose slew has completed in safe weather, with a
chosen target whose test image has not been taken. -/
def oSlewDone : Obs := { grBase with
  schedulerTarget := some ⟨"t1", false, 0, 3, false, false, false, false⟩ }

/-- A snapshot consistent with the sleeping state except that the camera is
disconnected, with the camera connect command made to fail (the
reconnect-then-park scenario of the spec). -/
def slpFault : Obs := { baseObs with
  mount := ⟨true, false, false, true⟩,
  faults := { noFaults with cameraConnect := true } }

/-- A scheduling-consistent snapshot with unsafe weather. -/
def schUnsafe : Obs := { grBase with
  camera := ⟨true, true, true, false⟩,
  weather := ⟨false⟩ }

/-- A snapshot satisfying the settled invariant of the imaging state (the
sun altitude is below -12 only because the invariant compares the radian
value against -12). -/
def wImg : Obs := { baseObs with
  camera := ⟨true, true, true, true⟩,
  mount := ⟨true, true, false, false⟩,
  sunAlt := -13,
  schedulerTarget := some ⟨"t1", true, 0, 3, false, false, false, false⟩ }

/-- C1, counterexample.  The claim demands that every handler other than
parking and parked return Parking with one Park call on an unsafe-weather
snapshot; the imaging handler returns imaging and issues no Park call (its
body never reads the weather). -/
theorem imaging_ignores_unsafe_weather :
    oImgUnsafe.weather.safe = false ∧
    resultState (while_imaging oImgUnsafe) = .ok "imaging" ∧
    resultState (while_imaging oImgUnsafe) ≠ .ok "parking" ∧
    parkCount (resultTrace (while_imaging oImgUnsafe)) = 0 := by
  refine ⟨rfl, rfl, ?_, rfl⟩
  decide

/-- C2, counterexample.  The claim demands that every failing corrective
action yield next state Parking, a Park call and one critical log; the mount
disconnect in the shutdown handler is not wrapped in try/except, so its
failure propagates as an uncaught exception with no Park call and no
critical log. -/
theorem shutdown_disconnect_failure_uncaught :
    resultState (while_shutdown oShutDisc) = .error .commandFailure ∧
    parkCount (resultTrace (while_shutdown oShutDisc)) = 0 ∧
    criticalCount (resultTrace (while_shutdown oShutDisc)) = 0 := by
  refine ⟨?_, ?_, ?_⟩ <;> decide

/-- C3, counterexample.  The claim states that the scheduling failure is the
sole non-escalating failure; a failed mount.park during the unsafe-weather
block of the getting ready handler is likewise non-escalating: the handler
returns getting ready after the park attempt fails. -/
theorem park_failure_nonescalating :
    grParkFail.faults.mountPark = true ∧
    resultState (while_getting_ready grParkFail) = .ok "getting ready" ∧
    resultState (while_getting_ready grParkFail) ≠ .ok "parking" ∧
    parkCount (resultTrace (while_getting_ready grParkFail)) = 1 ∧
    criticalCount (resultTrace (while_getting_ready grParkFail)) = 1 := by
  refine ⟨rfl, ?_, ?_, ?_, ?_⟩ <;> decide

/-- C5, code evaluation at the failing input.  With the slew complete in
safe weather and a chosen target whose test image is pending, the slewing
handler raises NameError on the unbound module-level name target (line 787)
instead of dispatching to taking test image, and no take_image command is
issued. -/
theorem slewing_dispatch_name_error :
    oSlewDone.mount.slewing = false ∧ oSlewDone.weather.safe = true ∧
    resultState (while_slewing oSlewDone) = .error (.nameError "target") ∧
    takeImageCount (resultTrace (while_slewing oSlewDone)) = 0 := by
  refine ⟨rfl, rfl, ?_, ?_⟩ <;> decide

/-- C6, code evaluation.  The analyzing handler is a stub: for every
snapshot and target it returns analyzing, issues no subsystem command and
leaves the target record (in particular imagesTaken, completed and
astrometrySolved) untouched, so neither the recenter slew nor the
completion transition of the claim exists in the code. -/
theorem analyzing_handler_is_stub (o : Obs) :
    resultState (while_analyzing o) = .ok "analyzing" ∧
    resultTrace (while_analyzing o) = [Ev.logDebug] ∧
    resultObs (while_analyzing o) = o :=
  ⟨rfl, rfl, rfl⟩

/-- The six corrective actions of the getting ready handler that are wrapped
in try/except with escalation to parking. -/
inductive GRFault where
  | camConnect
  | camCooling
  | camCancelExp
  | mntConnect
  | mntTracking
  | mntCancelSlew
deriving DecidableEq

/-- A getting-ready snapshot that violates exactly the clause corrected by
the given action, with that action made to fail and everything else
consistent. -/
def grFaultObs : GRFault → Obs
  | .camConnect =>
    { grBase with
      camera := ⟨false, true, false, false⟩
      faults := { noFaults with cameraConnect := true } }
  | .camCooling =>
    { grBase with
      camera := ⟨true, false, false, false⟩
      faults := { noFaults with cameraSetCooling := true } }
  | .camCancelExp =>
    { grBase with
      camera := ⟨true, true, false, true⟩
      faults := { noFaults with cameraCancelExposure := true } }
  | .mntConnect =>
    { grBase with
      mount := ⟨false, false, false, false⟩
      faults := { noFaults with mountConnect := true } }
  | .mntTracking =>
    { grBase with
      mount := ⟨true, true, false, false⟩
      faults := { noFaults with mountSetTracking := true } }
  | .mntCancelSlew =>
    { grBase with
      mount := ⟨true, false, true, false⟩
      faults := { noFaults with mountCancelSlew := true } }

/-- C2, amended.  Failure escalation holds only for the wrapped corrective
actions: in the getting ready handler each of the six wrapped actions, made
to fail on an otherwise consistent snapshot, yields next state Parking, one
Park call and exactly one critical log.  It does not hold in general: an
unwrapped disconnect failure in shutdown propagates uncaught, and the
sleeping and scheduling handlers raise TypeError from the rebound is_dark
attribute before returning whenever their corrective pass runs, as shown on
the reconnect-then-park scenario and the unsafe-weather scheduling
snapshot. -/
theorem getting_ready_fault_escalation :
    (∀ f : GRFault,
      resultState (while_getting_ready (grFaultObs f)) = .ok "parking" ∧
      parkCount (resultTrace (while_getting_ready (grFaultObs f))) = 1 ∧
      criticalCount (resultTrace (while_getting_ready (grFaultObs f))) = 1) ∧
    resultState (while_sleeping slpFault) = .error .typeError ∧
    resultState (while_scheduling schUnsafe) = .error .typeError := by
  refine ⟨fun f => ?_, ?_, ?_⟩
  · cases f <;> exact ⟨by decide, by decide, by decide⟩
  · decide
  · decide

/-- C1, amended.  Only the getting ready and slewing handlers escalate to
Parking on unsafe weather.  Invoked fresh on a snapshot whose other clauses
are consistent and whose park command succeeds, each returns Parking with
exactly one Park call; the shutdown, sleeping, taking test image, analyzing
and imaging handlers never read the weather, and the scheduling handler
raises TypeError before its weather block. -/
theorem weather_escalation_gr_slewing :
    (∀ o : Obs, o.isDarkRebound = false → o.weather.safe = false →
      o.camera.connected = true → o.camera.cooling = true →
      o.camera.exposing = false → o.mount.connected = true →
      o.mount.tracking = false → o.mount.slewing = false →
      o.faults.mountPark = false →
      resultState (while_getting_ready o) = .ok "parking" ∧
      parkCount (resultTrace (while_getting_ready o)) = 1) ∧
    (∀ o : Obs, o.weather.safe = false → o.mount.slewing = false →
      o.faults.mountPark = false →
      resultState (while_slewing o) = .ok "parking" ∧
      parkCount (resultTrace (while_slewing o)) = 1) := by
  constructor
  · intro o hf hw hcc hcg hce hmc hmt hms hpf
    simp only [while_getting_ready, isDarkCall, hf, Bool.false_eq_true, if_false,
      emit, hw, hcc, hcg, hce, hmc, hmt, hms, Bool.and_false, Bool.false_and,
      if_false, wrapped, Bool.not_true, Bool.and_true, Bool.not_false,
      grSchedule, weather_park, hpf]
    cases ht : o.schedulerTarget <;>
      simp [ht, hw, resultState, resultTrace, parkCount, emit, hpf,
        weather_park, Bind.bind, Except.bind]
  · intro o hw hms hpf
    simp [while_slewing, hw, hms, weather_park, hpf, emit, resultState,
      resultTrace, parkCount, Bind.bind, Except.bind]

/-- C1, witness: the amended theorem applied at the unsafe-weather
getting-ready snapshot and at the same snapshot handed to the slewing
handler. -/
theorem weather_escalation_gr_slewing_witness :
    (resultState (while_getting_ready oGRun) = .ok "parking" ∧
      parkCount (resultTrace (while_getting_ready oGRun)) = 1) ∧
    (resultState (while_slewing oGRun) = .ok "parking" ∧
      parkCount (resultTrace (while_slewing oGRun)) = 1) :=
  ⟨weather_escalation_gr_slewing.1 oGRun rfl rfl rfl rfl rfl rfl rfl rfl rfl,
   weather_escalation_gr_slewing.2 oGRun rfl rfl rfl⟩

/-- C3, amended.  On a fresh getting-ready snapshot with camera cooled and
weather safe, the get-target attempt fails (the try body raises NameError on
the unbound name scheduler before any scheduler call) and the handler
returns getting ready with no Park call; scheduling failure is however not
the sole non-escalating failure, since a failed Park during the
unsafe-weather block likewise returns getting ready. -/
theorem scheduling_failure_retries_getting_ready (o : Obs)
    (hf : o.isDarkRebound = false) (hcc : o.camera.connected = true)
    (hcg : o.camera.cooling = true) (hcd : o.camera.cooled = true)
    (hce : o.camera.exposing = false) (hmc : o.mount.connected = true)
    (hmt : o.mount.tracking = false) (hms : o.mount.slewing = false)
    (htg : o.schedulerTarget = none) (hw : o.weather.safe = true) :
    resultState (while_getting_ready o) = .ok "getting ready" ∧
    parkCount (resultTrace (while_getting_ready o)) = 0 := by
  simp [while_getting_ready, isDarkCall, hf, emit, hcc, hcg, hcd, hce, hmc,
    hmt, hms, htg, hw, wrapped, grSchedule, weather_park, moduleGlobals,
    resultState, resultTrace, parkCount, Bind.bind, Except.bind]

/-- C3, witness: the amended theorem applied at the cooled-camera
getting-ready snapshot. -/
theorem scheduling_failure_retries_witness :
    resultState (while_getting_ready grCooled) = .ok "getting ready" ∧
    parkCount (resultTrace (while_getting_ready grCooled)) = 0 :=
  scheduling_failure_retries_getting_ready grCooled rfl rfl rfl rfl rfl rfl
    rfl rfl rfl rfl

/-- C4.  For every state whose settled invariant holds on the snapshot
(invoked fresh, so that the is_dark attribute is still the method), the
handler returns the same state and issues zero subsystem commands: the five
checked handlers take their idle branch, and the five stub handlers return
unconditionally without commands. -/
theorem settled_invariant_idempotent (n : StateName) (o : Obs)
    (hf : o.isDarkRebound = false) (hs : settled n o = true) :
    resultState (runState n o) = .ok (stateKey n) ∧
    subsysCount (resultTrace (runState n o)) = 0 := by
  cases n <;>
    simp only [settled, Bool.and_eq_true, Bool.not_eq_true',
      decide_eq_true_eq, Option.isNone_iff_eq_none, and_assoc] at hs
  case shutdown =>
    simp [runState, while_shutdown, hs.1, hs.2.1, hs.2.2, emit, resultState,
      resultTrace, subsysCount, isSubsysCmd, stateKey]
  case sleeping =>
    simp [runState, while_sleeping, isDarkCall, hf, hs.1, hs.2.1, hs.2.2.1,
      hs.2.2.2.1, hs.2.2.2.2.1, hs.2.2.2.2.2.1, hs.2.2.2.2.2.2.1,
      hs.2.2.2.2.2.2.2, emit, resultState, resultTrace, subsysCount,
      isSubsysCmd, stateKey]
  case gettingReady =>
    simp [runState, while_getting_ready, isDarkCall, hf, hs.1, hs.2.1,
      hs.2.2.1, hs.2.2.2.1, hs.2.2.2.2.1, hs.2.2.2.2.2.1, hs.2.2.2.2.2.2.1,
      hs.2.2.2.2.2.2.2.1, hs.2.2.2.2.2.2.2.2.1, hs.2.2.2.2.2.2.2.2.2, emit,
      resultState, resultTrace, subsysCount, isSubsysCmd, stateKey]
  case scheduling =>
    simp [runState, while_scheduling, isDarkCall, hf, hs.1, hs.2.1, hs.2.2.1,
      hs.2.2.2.1, hs.2.2.2.2.1, hs.2.2.2.2.2.1, hs.2.2.2.2.2.2.1,
      hs.2.2.2.2.2.2.2, emit, resultState, resultTrace, subsysCount,
      isSubsysCmd, stateKey]
  case slewing =>
    simp [runState, while_slewing, hs.1, hs.2, emit, resultState,
      resultTrace, subsysCount, isSubsysCmd, stateKey]
  case takingTestImage =>
    simp [runState, while_taking_test_image, resultState, resultTrace,
      subsysCount, isSubsysCmd, stateKey]
  case analyzing =>
    simp [runState, while_analyzing, resultState, resultTrace, subsysCount,
      isSubsysCmd, stateKey]
  case imaging =>
    simp [runState, while_imaging, resultState, resultTrace, subsysCount,
      isSubsysCmd, stateKey]
  case parking =>
    simp [runState, while_parking, resultState, resultTrace, subsysCount,
      isSubsysCmd, stateKey]
  case parked =>
    simp [runState, while_parked, resultState, resultTrace, subsysCount,
      isSubsysCmd, stateKey]

/-- C4, witness: the idempotence theorem applied to the imaging state on a
snapshot satisfying its settled invariant. -/
theorem settled_invariant_idempotent_witness :
    settled .imaging wImg = true ∧
    resultState (runState .imaging wImg) = .ok (stateKey .imaging) ∧
    subsysCount (resultTrace (runState .imaging wImg)) = 0 :=
  ⟨by decide, settled_invariant_idempotent .imaging wImg rfl (by decide)⟩

/-- The radian value that ephem stores for an angle of d degrees (sun.alt is
an ephem Angle, a float holding radians). -/
noncomputable def degToRad (d : ℝ) : ℝ := d * Real.pi / 180

/-- The boolean test evaluated by is_dark at line 197: sun.alt is compared
with the numeric dark_horizon argument, whose default is -12.  The left side
is the radian value of the solar altitude and the right side a plain
number. -/
def is_dark_test (sunAltRad horizon : ℝ) : Prop := sunAltRad < horizon

/-- C7.  Evaluation of the code at the twilight boundary of the claim: with
the default horizon of -12, is_dark compares the radian-valued solar
altitude with -12, so it returns false both at a solar altitude of -11.9
degrees (as the claim expects) and at -12.1 degrees (where the claim expects
true); indeed every physical solar altitude, lying between -pi/2 and pi/2
radians, stays above -12, so the dark test never succeeds at the default
horizon. -/
theorem is_dark_radian_degree_mismatch :
    ¬ is_dark_test (degToRad (-119 / 10)) (-12) ∧
    ¬ is_dark_test (degToRad (-121 / 10)) (-12) ∧
    ∀ r : ℝ, -(Real.pi / 2) ≤ r → ¬ is_dark_test r (-12) := by
  have hpi : Real.pi ≤ 4 := Real.pi_le_four
  have hpos : 0 < Real.pi := Real.pi_pos
  refine ⟨?_, ?_, ?_⟩
  · simp only [is_dark_test, degToRad, not_lt]
    nlinarith
  · simp only [is_dark_test, degToRad, not_lt]
    nlinarith
  · intro r hr
    simp only [is_dark_test, not_lt]
    nlinarith

/-- Helper: query_conditions always raises NameError on the unbound name
observatory. -/
theorem query_conditions_eq :
    query_conditions = .error (.nameError "observatory") := rfl

/-- C8, counterexample.  The claim demands one Heartbeat call per loop
iteration; an iteration on the imaging state performs zero heartbeat writes
(the loop body has no heartbeat call, and aborts in query_conditions with
NameError before the dispatch). -/
theorem loop_iteration_no_heartbeat :
    heartbeatWrites (loopIter "imaging" baseObs).2 = 0 ∧
    (loopIter "imaging" baseObs).1 = .error (.nameError "observatory") := by
  exact ⟨rfl, rfl⟩

/-- C8, amended.  The main loop never calls heartbeat: every iteration, in
every state, performs zero heartbeat writes (non-stop states abort with
NameError in query_conditions; the stop state breaks); the heartbeat method
itself, when invoked directly, performs exactly one write of the current
timestamp to the marker file. -/
theorem heartbeat_never_called_in_loop :
    (∀ (st : String) (o : Obs), heartbeatWrites (loopIter st o).2 = 0) ∧
    heartbeatWrites heartbeat = 1 := by
  refine ⟨fun st o => ?_, rfl⟩
  by_cases h : st = "stop_observing" <;>
    simp [loopIter, h, query_conditions_eq, heartbeatWrites]

/-- C9.  For every state other than the stop sentinel, an iteration of the
start_observing loop raises an uncaught NameError before committing any
state transition: the first statement of query_conditions reads the unbound
module-level name observatory; moreover the dispatch expression of line 155
reads the unbound module-level name states, so even with query_conditions
repaired the dispatch would raise NameError as well, and the loop can never
complete a cycle. -/
theorem start_observing_name_errors (st : String) (o : Obs)
    (h : st ≠ "stop_observing") :
    (loopIter st o).1 = .error (.nameError "observatory") ∧
    (loopIter st o).2 = [] ∧
    statesLookupGlobal = .error (.nameError "states") := by
  refine ⟨?_, ?_, rfl⟩ <;> simp [loopIter, h, query_conditions_eq]

/-- C9, witness: the loop-iteration theorem applied at the startup state
shutdown. -/
theorem start_observing_name_errors_witness :
    (loopIter "shutdown" baseObs).1 = .error (.nameError "observatory") ∧
    (loopIter "shutdown" baseObs).2 = [] ∧
    statesLookupGlobal = .error (.nameError "states") :=
  start_observing_name_errors "shutdown" baseObs (by decide)

/-- C10.  On an instance whose is_dark attribute is still the method, a
first call completes: it returns the Bool sun.alt < -12 and rebinds the
attribute to that Bool (line 197); the returned context has the rebound
flag set, and because of it any second invocation of the attribute raises
TypeError instead of running the method body. -/
theorem is_dark_rebinds_attribute (c : Ctx) (hf : c.obs.isDarkRebound = false) :
    isDarkCall c =
      .ok (decide (c.obs.sunAlt < -12),
        { cs := c.cs, trace := c.trace ++ [Ev.logDebug],
          obs := { c.obs with isDarkRebound := true } }) ∧
    ∀ r : Bool × Ctx, isDarkCall c = .ok r →
      r.2.obs.isDarkRebound = true ∧
      isDarkCall r.2 = .error (.typeError, r.2) := by
  have h1 : isDarkCall c =
      .ok (decide (c.obs.sunAlt < -12),
        { cs := c.cs, trace := c.trace ++ [Ev.logDebug],
          obs := { c.obs with isDarkRebound := true } }) := by
    simp [isDarkCall, hf, emit]
  refine ⟨h1, fun r hr => ?_⟩
  rw [h1] at hr
  cases hr
  exact ⟨rfl, by simp [isDarkCall]⟩

/-- C10, witness: the rebinding theorem applied at a fresh baseline
context. -/
theorem is_dark_rebinds_witness :
    isDarkCall ⟨"shutdown", [], baseObs⟩ =
      .ok (decide (baseObs.sunAlt < -12),
        { cs := "shutdown", trace := [Ev.logDebug],
          obs := { baseObs with isDarkRebound := true } }) ∧
    ∀ r : Bool × Ctx, isDarkCall ⟨"shutdown", [], baseObs⟩ = .ok r →
      r.2.obs.isDarkRebound = true ∧
      isDarkCall r.2 = .error (.typeError, r.2) := by
  have := is_dark_rebinds_attribute ⟨"shutdown", [], baseObs⟩ rfl
  simpa using this
